import Mathlib

/-!
Verification of the product-catalog HTTP service (`src/main.py`) against its
specification.  The service is a thin FastAPI app over a Mongo-style document
store.  Pure request handling is embedded as Lean functions; the document
store gateway (the `database` module, absent from the sources) is modelled
from the specification, section 4.1.  Prices are embedded as rationals: the
code performs no arithmetic on them, only comparison with zero and defaulting.
-/

namespace ECommerce

/-! ## ObjectId model (the `bson.ObjectId` library type)

A Mongo `ObjectId` is a 12-byte value; its string form is 24 hexadecimal
characters.  `ObjectId(s)` succeeds exactly when `s` is a 24-character hex
string, and `str(oid)` renders 24 lowercase hex characters.  We embed an
`ObjectId` value as the natural number its hex digits denote. -/

/-- Numeric value of a hexadecimal digit character, `none` for non-hex. -/
def hexVal (c : Char) : Option Nat :=
  if '0' ≤ c ∧ c ≤ '9' then some (c.toNat - 48)
  else if 'a' ≤ c ∧ c ≤ 'f' then some (c.toNat - 87)
  else if 'A' ≤ c ∧ c ≤ 'F' then some (c.toNat - 55)
  else none

/-- Lowercase hex digit character for `n < 16`. -/
def hexChar (n : Nat) : Char :=
  if n < 10 then Char.ofNat (48 + n) else Char.ofNat (87 + n)

/-- Big-endian hex rendering of `n` on exactly `len` digits. -/
def renderHex : Nat → Nat → List Char
  | 0, _ => []
  | l + 1, n => renderHex l (n / 16) ++ [hexChar (n % 16)]

/-- Hex parsing of a character list, accumulator style; `none` on any
non-hex character. -/
def parseHexAux : List Char → Nat → Option Nat
  | [], acc => some acc
  | c :: cs, acc =>
    match hexVal c with
    | some v => parseHexAux cs (acc * 16 + v)
    | none => none

/-- `str(oid)`: the 24-character lowercase hex string of an ObjectId. -/
def objectIdToString (n : Nat) : String := String.mk (renderHex 24 n)

/-- `ObjectId(s)`: parse a string into an ObjectId; succeeds exactly on
24-character hex strings. -/
def objectIdFromString (s : String) : Option Nat :=
  if s.length = 24 then parseHexAux s.toList 0 else none

theorem hexVal_hexChar : ∀ k < 16, hexVal (hexChar k) = some k := by decide

theorem length_renderHex (l : Nat) : ∀ n, (renderHex l n).length = l := by
  induction l with
  | zero => intro n; rfl
  | succ l ih =>
    intro n
    simp [renderHex, ih]

theorem parseHexAux_append (xs ys : List Char) (acc : Nat) :
    parseHexAux (xs ++ ys) acc =
      (parseHexAux xs acc).bind (fun a => parseHexAux ys a) := by
  induction xs generalizing acc with
  | nil => rfl
  | cons c cs ih =>
    simp only [List.cons_append, parseHexAux]
    cases hexVal c with
    | some v => exact ih (acc * 16 + v)
    | none => rfl

theorem parseHexAux_renderHex (l : Nat) :
    ∀ n acc, n < 16 ^ l →
      parseHexAux (renderHex l n) acc = some (acc * 16 ^ l + n) := by
  induction l with
  | zero =>
    intro n acc hn
    interval_cases n
    simp [renderHex, parseHexAux]
  | succ l ih =>
    intro n acc hn
    have hdiv : n / 16 < 16 ^ l := by
      apply Nat.div_lt_of_lt_mul
      calc n < 16 ^ (l + 1) := hn
        _ = 16 * 16 ^ l := by ring
    rw [renderHex, parseHexAux_append, ih (n / 16) acc hdiv]
    have hmod : n % 16 < 16 := Nat.mod_lt _ (by norm_num)
    simp only [Option.some_bind, parseHexAux, hexVal_hexChar (n % 16) hmod]
    congr 1
    have hdm : 16 * (n / 16) + n % 16 = n := Nat.div_add_mod n 16
    calc (acc * 16 ^ l + n / 16) * 16 + n % 16
        = acc * (16 ^ l * 16) + (16 * (n / 16) + n % 16) := by ring
      _ = acc * 16 ^ (l + 1) + n := by rw [hdm]; ring

/-- Round trip: parsing the rendered string of an ObjectId recovers it. -/
theorem objectIdFromString_toString (n : Nat) (h : n < 16 ^ 24) :
    objectIdFromString (objectIdToString n) = some n := by
  unfold objectIdFromString objectIdToString
  have hlen : (String.mk (renderHex 24 n)).length = 24 := by
    simpa [String.length] using length_renderHex 24 n
  rw [if_pos hlen]
  have : (String.mk (renderHex 24 n)).toList = renderHex 24 n := rfl
  rw [this, parseHexAux_renderHex 24 n 0 h]
  simp

/-! ## Data model -/

/-- A stored document in the `product` collection.  Mongo documents are
schema-flexible, so every field other than the store-assigned `_id` may be
absent (`none`). -/
structure Doc where
  _id : Nat
  title : Option String
  description : Option String
  price : Option ℚ
  category : Option String
  image : Option String
  in_stock : Option Bool
deriving DecidableEq, Repr

/-- A document to insert: a `Doc` before the store assigns its `_id`.
`ProductIn.dict` produces one with every field present. -/
structure DocIn where
  title : Option String
  description : Option String
  price : Option ℚ
  category : Option String
  image : Option String
  in_stock : Option Bool
deriving DecidableEq, Repr

/-- Attach a store-assigned identifier to a document being inserted. -/
def DocIn.withId (d : DocIn) (oid : Nat) : Doc :=
  ⟨oid, d.title, d.description, d.price, d.category, d.image, d.in_stock⟩

/-- The request body schema `ProductIn` after JSON parsing: `title`, `price`,
`category` required, `description`/`image` optional, `in_stock` defaulting to
true.  The `ge=0` constraint on `price` is checked by `create_product`. -/
structure ProductIn where
  title : String
  description : Option String
  price : ℚ
  category : String
  image : Option String
  in_stock : Bool
deriving DecidableEq, Repr

/-- The response schema `ProductOut`: `ProductIn` plus the identifier. -/
structure ProductOut where
  id : String
  title : String
  description : Option String
  price : ℚ
  category : String
  image : Option String
  in_stock : Bool
deriving DecidableEq, Repr

/-- `product.dict()`: the record inserted by the create endpoint; every
field is present (optional ones possibly null, which the store model
represents the same way as absent since conversion reads both alike). -/
def ProductIn.dict (p : ProductIn) : DocIn :=
  ⟨some p.title, p.description, some p.price, some p.category, p.image,
    some p.in_stock⟩

/-- Outcomes of a request that the service maps to HTTP statuses. -/
inductive ApiError where
  /-- `HTTPException(status_code, detail)` raised by a handler. -/
  | http (status : Nat) (detail : String)
  /-- FastAPI request-validation failure (422) with field-level detail. -/
  | validation (detail : String)
  /-- an exception escaping a handler (undefined status). -/
  | unhandled
deriving DecidableEq, Repr

/-- The fixed configuration-error response used by every data endpoint. -/
def configError : ApiError := .http 500 "Database not configured"

/-! ## Document store gateway

The `database` module is not part of the sources; its operations are
modelled from the specification, section 4.1. -/

/-- Modelled from the spec: the document store behind the missing `database`
module.  It owns the single `product` collection, kept in insertion order,
plus the generator state for the next assigned identifier. -/
structure Store where
  products : List Doc
  nextId : Nat
deriving DecidableEq, Repr

/-- Modelled from the spec: `insert(collection, record) -> generated_id` of
the missing `database` module — inserts one record into the `product`
collection and returns the newly generated identifier as text. -/
def create_document (s : Store) (d : DocIn) : String × Store :=
  (objectIdToString s.nextId,
    ⟨s.products ++ [d.withId s.nextId], s.nextId + 1⟩)

/-- A category filter: `none` is the empty Mongo filter, `some c` is
the filter document requiring the stored category to equal `c` exactly. -/
def matchesFilt (filt : Option String) (d : Doc) : Bool :=
  match filt with
  | none => true
  | some c => d.category = some c

/-- Modelled from the spec: `query(collection, filter, limit)` of the missing
`database` module — up to `limit` matching records in store-native
(insertion) order. -/
def get_documents (s : Store) (filt : Option String) (limit : Nat) :
    List Doc :=
  (s.products.filter (matchesFilt filt)).take limit

/-- Modelled from the spec: `find_one_by_id` — the raw-handle
`db["product"].find_one({"_id": oid})` lookup. -/
def find_one_by_id (s : Store) (oid : Nat) : Option Doc :=
  s.products.find? (fun d => d._id = oid)

/-- Modelled from the spec: `count` — the raw-handle
`db["product"].count_documents({})` call with the empty filter. -/
def count_documents (s : Store) : Nat := s.products.length

/-! ## Record-to-output conversion (`_doc_to_product`) -/

/-- `_doc_to_product`: convert a stored document to a `ProductOut`.
`none` models the pydantic validation error raised when a required field
(`title`, `category`) is missing or the `ge=0` constraint on `price` fails;
absent optional fields take their defaults (`doc.get` with default). -/
def _doc_to_product (doc : Doc) : Option ProductOut :=
  match doc.title, doc.category with
  | some t, some c =>
    if 0 ≤ doc.price.getD 0 then
      some ⟨objectIdToString doc._id, t, doc.description, doc.price.getD 0,
        c, doc.image, doc.in_stock.getD true⟩
    else none
  | _, _ => none

/-- The list comprehension `[_doc_to_product(d) for d in docs]`: fails (an
exception escapes the handler) as soon as one document fails to convert. -/
def mapDocs : List Doc → Option (List ProductOut)
  | [] => some []
  | d :: ds =>
    match _doc_to_product d, mapDocs ds with
    | some p, some ps => some (p :: ps)
    | _, _ => none

/-! ## Endpoints -/

/-- `GET /api/products`: list products with an optional exact-match category
filter and a limit (default 50).  Python truthiness: `if category` is false
both for `None` and for the empty string, so the filter applies only to a
non-empty category string. -/
def list_products (db : Option Store) (category : Option String)
    (limit : Nat) : Except ApiError (List ProductOut) :=
  match db with
  | none => .error configError
  | some s =>
    let filt : Option String :=
      match category with
      | none => none
      | some c => if c = "" then none else some c
    match mapDocs (get_documents s filt limit) with
    | some outs => .ok outs
    | none => .error .unhandled

/-- `POST /api/products`: create a product.  FastAPI validates the body
(here the `ge=0` price constraint) before the handler runs; the handler
checks the store handle, inserts, and returns the generated id.  The second
component is the store state after the call. -/
def create_product (db : Option Store) (p : ProductIn) :
    Except ApiError String × Option Store :=
  if p.price < 0 then
    (.error (.validation "ensure this value is greater than or equal to 0"),
      db)
  else
    match db with
    | none => (.error configError, none)
    | some s =>
      let r := create_document s p.dict
      (.ok r.1, some r.2)

/-- `GET /api/products/{product_id}`: parse the id, look the document up,
convert it.  The id format is validated before any store query; conversion
failure is an exception escaping the handler. -/
def get_product (db : Option Store) (product_id : String) :
    Except ApiError ProductOut :=
  match db with
  | none => .error configError
  | some s =>
    match objectIdFromString product_id with
    | none => .error (.http 400 "Invalid product id")
    | some oid =>
      match find_one_by_id s oid with
      | none => .error (.http 404 "Product not found")
      | some doc =>
        match _doc_to_product doc with
        | some p => .ok p
        | none => .error .unhandled

/-- The fixed demo dataset of `seed_products`, in source order. -/
def demo : List DocIn :=
  [⟨some "NeoCube Pro",
    some "Futuristic modular cube speaker with reactive LEDs.",
    some (199.99 : ℚ), some "audio",
    some "https://images.unsplash.com/photo-1518779578993-ec3579fee39f?auto=format&fit=crop&w=800&q=60",
    some true⟩,
   ⟨some "Iris Orbit Lamp",
    some "Iridescent smart lamp that orbits hues through the day.",
    some (129.0 : ℚ), some "lighting",
    some "https://images.unsplash.com/photo-1496307042754-b4aa456c4a2d?auto=format&fit=crop&w=800&q=60",
    some true⟩,
   ⟨some "Glyph Headphones",
    some "Metallic over-ears with spatial audio and ANC.",
    some (249.0 : ℚ), some "audio",
    some "https://images.unsplash.com/photo-1518443747120-6f6f2d80b7a1?auto=format&fit=crop&w=800&q=60",
    some true⟩,
   ⟨some "Prism Desk Mat",
    some "Soft-touch mat with subtle neon edge glow.",
    some (39.0 : ℚ), some "accessories",
    some "https://images.unsplash.com/photo-1473186578172-c141e6798cf4?auto=format&fit=crop&w=800&q=60",
    some true⟩]

/-- `POST /api/seed`: insert the demo records when the collection is empty,
counting the insertions; no-op returning 0 otherwise.  The second component
is the store state after the call. -/
def seed_products (db : Option Store) : Except ApiError Nat × Option Store :=
  match db with
  | none => (.error configError, none)
  | some s =>
    if count_documents s > 0 then (.ok 0, some s)
    else
      let r := demo.foldl
        (fun (acc : Store × Nat) d => ((create_document acc.1 d).2, acc.2 + 1))
        (s, 0)
      (.ok r.2, some r.1)

/-! ## Diagnostic endpoint (`GET /test`) -/

/-- `str(e)[:50]`: the first 50 characters of an exception message. -/
def truncate50 (s : String) : String := String.mk (s.toList.take 50)

/-- Environment facts `test_database` consults besides the store handle:
the outcome of `db.list_collection_names()` (which may throw), and whether
the two configuration environment variables are set. -/
structure DiagEnv where
  collectionNames : Except String (List String)
  databaseUrlSet : Bool
  databaseNameSet : Bool
deriving Repr

/-- The structured report returned (status 200) by `GET /test`. -/
structure TestReport where
  backend : String
  database : String
  database_url : String
  database_name : String
  connection_status : String
  collections : List String
deriving DecidableEq, Repr

/-- `test_database`: build the diagnostic report.  Every failure of the
collection listing is caught and rendered into the `database` field as text
truncated to 50 characters; the function itself never fails. -/
def test_database (db : Option Store) (env : DiagEnv) : TestReport :=
  let base : TestReport :=
    ⟨"✅ Running", "❌ Not Available", "", "", "Not Connected", []⟩
  let mid : TestReport :=
    match db with
    | some _ =>
      match env.collectionNames with
      | .ok names =>
        { base with database := "✅ Connected & Working",
                    connection_status := "Connected",
                    collections := names.take 10 }
      | .error e =>
        { base with
            database := "⚠️  Connected but Error: " ++ truncate50 e,
            connection_status := "Connected" }
    | none => { base with database := "⚠️  Available but not initialized" }
  { mid with
      database_url := if env.databaseUrlSet then "✅ Set" else "❌ Not Set",
      database_name := if env.databaseNameSet then "✅ Set" else "❌ Not Set" }

/-! ## Claims -/

/-- C6: the record-to-output conversion string-ifies the stored `_id` into
`id` and applies defaults for absent fields — `description` to none, `image`
to none, `in_stock` to true, `price` to 0 — and never fails when any
optional field is missing from the stored record. -/
theorem doc_to_product_defaults (oid : Nat) (t c : String)
    (desc img : Option String) (pr : Option ℚ) (instk : Option Bool)
    (hpr : 0 ≤ pr.getD 0) :
    _doc_to_product ⟨oid, some t, desc, pr, some c, img, instk⟩
      = some ⟨objectIdToString oid, t, desc, pr.getD 0, c, img,
          instk.getD true⟩ := by
  simp [_doc_to_product, hpr]

theorem doc_to_product_defaults_witness :
    _doc_to_product ⟨1, some "Thing", none, none, some "misc", none, none⟩
      = some ⟨objectIdToString 1, "Thing", none, 0, "misc", none, true⟩ :=
  doc_to_product_defaults 1 "Thing" "misc" none none none none (by norm_num)

/-- C3: for every id string that cannot be parsed into the store's
identifier format, `get_product` returns the malformed-id error (400)
whatever the store contains — the identifier format is validated before any
store query is issued. -/
theorem get_product_malformed_id (pid : String)
    (h : objectIdFromString pid = none) (s : Store) :
    get_product (some s) pid = .error (.http 400 "Invalid product id") := by
  simp [get_product, h]

theorem get_product_malformed_id_witness :
    get_product (some ⟨[], 0⟩) "oops"
      = .error (.http 400 "Invalid product id") :=
  get_product_malformed_id "oops" (by decide) ⟨[], 0⟩

/-- C7: for every well-formed id that matches no stored record,
`get_product` returns the not-found error (404). -/
theorem get_product_absent_id (pid : String) (oid : Nat) (s : Store)
    (hp : objectIdFromString pid = some oid)
    (habs : ∀ d ∈ s.products, d._id ≠ oid) :
    get_product (some s) pid = .error (.http 404 "Product not found") := by
  have hf : find_one_by_id s oid = none := by
    simp only [find_one_by_id, List.find?_eq_none, decide_eq_true_eq]
    exact habs
  simp [get_product, hp, hf]

theorem get_product_absent_id_witness :
    get_product (some ⟨[], 0⟩) (objectIdToString 5)
      = .error (.http 404 "Product not found") :=
  get_product_absent_id (objectIdToString 5) 5 ⟨[], 0⟩
    (objectIdFromString_toString 5 (by norm_num)) (by simp)

/-- C2: when no store connection is configured, list, create (on a valid
body), get and seed all return the fixed configuration-error response (500,
"Database not configured") with no store to touch, while the diagnostic
endpoint still produces its report, whose `database` field shows the store
as not initialized. -/
theorem no_store_configuration_error (category : Option String)
    (limit : Nat) (p : ProductIn) (hp : 0 ≤ p.price) (pid : String)
    (env : DiagEnv) :
    list_products none category limit = .error configError
    ∧ create_product none p = (.error configError, none)
    ∧ get_product none pid = .error configError
    ∧ seed_products none = (.error configError, none)
    ∧ (test_database none env).database
        = "⚠️  Available but not initialized" := by
  refine ⟨rfl, ?_, rfl, rfl, rfl⟩
  unfold create_product
  rw [if_neg (not_lt.mpr hp)]

theorem no_store_configuration_error_witness :
    list_products none none 50 = .error configError
    ∧ create_product none ⟨"Widget", none, 5, "misc", none, true⟩
        = (.error configError, none)
    ∧ get_product none "abc" = .error configError
    ∧ seed_products none = (.error configError, none)
    ∧ (test_database none ⟨.ok [], false, false⟩).database
        = "⚠️  Available but not initialized" :=
  no_store_configuration_error none 50 ⟨"Widget", none, 5, "misc", none, true⟩
    (by norm_num) "abc" ⟨.ok [], false, false⟩

/-- C10: listing with the empty-string category applies no filter at all:
the result coincides with listing with the category parameter omitted, for
every store state and limit. -/
theorem list_products_empty_category (db : Option Store) (limit : Nat) :
    list_products db (some "") limit = list_products db none limit := by
  cases db <;> rfl

/-- C4: for every product input with a negative price, the create endpoint
fails with a validation error and performs no write: the store state is
returned unchanged. -/
theorem create_product_negative_price (db : Option Store) (p : ProductIn)
    (h : p.price < 0) :
    create_product db p
      = (.error (.validation
          "ensure this value is greater than or equal to 0"), db) := by
  unfold create_product
  rw [if_pos h]

theorem create_product_negative_price_witness :
    create_product (some ⟨[], 0⟩) ⟨"Widget", none, -1, "misc", none, true⟩
      = (.error (.validation
          "ensure this value is greater than or equal to 0"),
         some ⟨[], 0⟩) :=
  create_product_negative_price (some ⟨[], 0⟩)
    ⟨"Widget", none, -1, "misc", none, true⟩ (by norm_num)

theorem truncate50_length_le (s : String) : (truncate50 s).length ≤ 50 := by
  have : (truncate50 s).length = (s.toList.take 50).length := rfl
  rw [this, List.length_take]
  exact min_le_left _ _

/-- C9: the database diagnostic endpoint is a total function into reports:
for every store handle and environment its collections array has at most 10
entries, and when listing the collection names fails the failure is captured
into the `database` field as text truncated to 50 characters of the
exception message. -/
theorem test_database_bounded (db2 : Option Store) (s : Store)
    (env env2 : DiagEnv) (e : String)
    (h : env.collectionNames = .error e) :
    (test_database db2 env2).collections.length ≤ 10
    ∧ (test_database (some s) env).database
        = "⚠️  Connected but Error: " ++ truncate50 e
    ∧ (truncate50 e).length ≤ 50 := by
  refine ⟨?_, ?_, truncate50_length_le e⟩
  · cases db2 with
    | none => simp [test_database]
    | some u =>
      cases hc : env2.collectionNames with
      | ok names =>
        simp [test_database, hc, List.length_take]
      | error e2 => simp [test_database, hc]
  · simp [test_database, h]

theorem test_database_bounded_witness :
    (test_database (some ⟨[], 0⟩)
        ⟨.ok ["a", "b", "c"], true, true⟩).collections.length ≤ 10
    ∧ (test_database (some ⟨[], 0⟩)
        ⟨.error "boom", true, true⟩).database
        = "⚠️  Connected but Error: " ++ truncate50 "boom"
    ∧ (truncate50 "boom").length ≤ 50 :=
  test_database_bounded (some ⟨[], 0⟩) ⟨[], 0⟩
    ⟨.error "boom", true, true⟩ ⟨.ok ["a", "b", "c"], true, true⟩ "boom" rfl

theorem mapDocs_mem (l : List Doc) (outs : List ProductOut)
    (h : mapDocs l = some outs) :
    ∀ o ∈ outs, ∃ d ∈ l, _doc_to_product d = some o := by
  induction l generalizing outs with
  | nil =>
    unfold mapDocs at h
    cases h
    simp
  | cons d ds ih =>
    intro o ho
    unfold mapDocs at h
    cases hd : _doc_to_product d <;> rw [hd] at h
    · exact absurd h (by simp)
    · cases hds : mapDocs ds <;> rw [hds] at h
      · exact absurd h (by simp)
      · rename_i p ps
        have hcons : p :: ps = outs := by
          simpa using h
        subst hcons
        rcases List.mem_cons.mp ho with h1 | h2
        · exact ⟨d, List.mem_cons_self d ds, h1 ▸ hd⟩
        · obtain ⟨d2, hd2, hconv⟩ := ih ps hds o h2
          exact ⟨d2, List.mem_cons_of_mem d hd2, hconv⟩

theorem doc_to_product_category (d : Doc) (o : ProductOut)
    (h : _doc_to_product d = some o) : d.category = some o.category := by
  unfold _doc_to_product at h
  rcases ht : d.title with _ | t
  · rcases hcat : d.category with _ | cc <;> rw [ht, hcat] at h <;>
      exact absurd h (by simp)
  · rcases hcat : d.category with _ | cc
    · rw [ht, hcat] at h
      exact absurd h (by simp)
    · rw [ht, hcat] at h
      dsimp only at h
      split at h
      · injection h with h2
        subst h2
        rfl
      · exact absurd h (by simp)

/-- C8: listing products with a non-empty category string returns only
records whose stored category exactly equals that string. -/
theorem list_products_exact_category (s : Store) (limit : Nat) (c : String)
    (hc : c ≠ "") (outs : List ProductOut)
    (h : list_products (some s) (some c) limit = .ok outs) :
    ∀ o ∈ outs, o.category = c := by
  intro o ho
  have hfc : (if c = "" then (none : Option String) else some c) = some c :=
    if_neg hc
  unfold list_products at h
  dsimp only at h
  rw [hfc] at h
  cases hm : mapDocs (get_documents s (some c) limit) <;> rw [hm] at h
  · exact absurd h (by simp)
  · rename_i outs2
    have houts : outs2 = outs := by simpa using h
    subst houts
    obtain ⟨d, hd, hconv⟩ := mapDocs_mem _ _ hm o ho
    have hdf : d ∈ s.products.filter (matchesFilt (some c)) :=
      List.mem_of_mem_take hd
    have hmatch : matchesFilt (some c) d = true :=
      List.of_mem_filter hdf
    have hdc : d.category = some c := by
      simpa [matchesFilt] using hmatch
    have := doc_to_product_category d o hconv
    rw [hdc] at this
    exact (Option.some_inj.mp this).symm

theorem list_products_exact_category_witness :
    (ProductOut.mk (objectIdToString 0) "Glyph Headphones" none 249
        "audio" none true).category = "audio" :=
  list_products_exact_category
    ⟨[⟨0, some "Glyph Headphones", none, some 249, some "audio", none,
        some true⟩,
      ⟨1, some "Iris Orbit Lamp", none, some 129, some "lighting", none,
        some true⟩], 2⟩
    50 "audio" (by decide)
    [⟨objectIdToString 0, "Glyph Headphones", none, 249, "audio", none,
      true⟩]
    rfl
    ⟨objectIdToString 0, "Glyph Headphones", none, 249, "audio", none,
      true⟩
    (List.mem_cons_self _ _)

/-- The demo documents as stored after seeding a store whose id generator
state is `k`: each record paired with its sequentially assigned id. -/
def demoWithIds (k : Nat) : List Doc :=
  List.zipWith DocIn.withId demo [k, k + 1, k + 2, k + 3]

/-- C5: seeding an empty collection inserts exactly the 4 fixed demo
records in sequence order and returns 4; seeding a non-empty collection
returns 0 and leaves it unchanged; and every successful seed call returns
either 0 or exactly 4. -/
theorem seed_products_spec (s t : Store) (hs : s.products = [])
    (ht : t.products ≠ []) (db : Option Store) (n : Nat)
    (st : Option Store) (h : seed_products db = (.ok n, st)) :
    seed_products (some s)
      = (.ok 4, some ⟨demoWithIds s.nextId, s.nextId + 4⟩)
    ∧ seed_products (some t) = (.ok 0, some t)
    ∧ (n = 0 ∨ n = 4) := by
  refine ⟨?_, ?_, ?_⟩
  · simp [seed_products, count_documents, hs, demo, demoWithIds,
      create_document, DocIn.withId]
  · have hpos : count_documents t > 0 := List.length_pos.mpr ht
    simp [seed_products, hpos]
  · cases db with
    | none => simp [seed_products] at h
    | some u =>
      unfold seed_products at h
      dsimp only at h
      split at h
      · injection h with h1 h2
        injection h1 with h3
        exact Or.inl h3.symm
      · simp only [demo, List.foldl] at h
        injection h with h1 h2
        injection h1 with h3
        right
        omega

theorem seed_products_spec_witness :
    seed_products (some ⟨[], 0⟩) = (.ok 4, some ⟨demoWithIds 0, 4⟩)
    ∧ seed_products
        (some ⟨[⟨0, some "X", none, some 1, some "misc", none, some true⟩],
          1⟩)
      = (.ok 0,
         some ⟨[⟨0, some "X", none, some 1, some "misc", none, some true⟩],
           1⟩)
    ∧ (4 = 0 ∨ 4 = 4) :=
  seed_products_spec ⟨[], 0⟩
    ⟨[⟨0, some "X", none, some 1, some "misc", none, some true⟩], 1⟩
    rfl (by simp) (some ⟨[], 0⟩) 4 (some ⟨demoWithIds 0, 4⟩)
    (by simp [seed_products, count_documents, demo, demoWithIds,
      create_document, DocIn.withId])

/-- C1: for every valid product input (price nonnegative), creating it and
then getting it by the returned id yields a product output whose title,
description, price, category, image and in_stock equal the input's, with
the newly assigned identifier as id. -/
theorem create_then_get (s : Store) (p : ProductIn) (hp : 0 ≤ p.price)
    (hfresh : ∀ d ∈ s.products, d._id < s.nextId)
    (hb : s.nextId < 16 ^ 24) :
    (create_product (some s) p).1 = .ok (objectIdToString s.nextId)
    ∧ get_product (create_product (some s) p).2 (objectIdToString s.nextId)
      = .ok ⟨objectIdToString s.nextId, p.title, p.description, p.price,
          p.category, p.image, p.in_stock⟩ := by
  have hcp : create_product (some s) p
      = (.ok (objectIdToString s.nextId),
         some ⟨s.products ++ [p.dict.withId s.nextId], s.nextId + 1⟩) := by
    unfold create_product
    rw [if_neg (not_lt.mpr hp)]
    rfl
  refine ⟨by rw [hcp], ?_⟩
  rw [hcp]
  have hparse := objectIdFromString_toString s.nextId hb
  have hfind : find_one_by_id
      ⟨s.products ++ [p.dict.withId s.nextId], s.nextId + 1⟩ s.nextId
      = some (p.dict.withId s.nextId) := by
    unfold find_one_by_id
    rw [List.find?_append]
    have h1 : s.products.find? (fun d => d._id = s.nextId) = none := by
      simp only [List.find?_eq_none, decide_eq_true_eq]
      intro d hd
      exact Nat.ne_of_lt (hfresh d hd)
    rw [h1]
    simp [DocIn.withId, ProductIn.dict]
  unfold get_product
  dsimp only
  rw [hparse]
  dsimp only
  rw [hfind]
  dsimp only
  simp [_doc_to_product, DocIn.withId, ProductIn.dict, hp]

theorem create_then_get_witness :
    (create_product (some ⟨[], 0⟩)
        ⟨"Widget", none, 5, "misc", none, true⟩).1
      = .ok (objectIdToString 0)
    ∧ get_product (create_product (some ⟨[], 0⟩)
          ⟨"Widget", none, 5, "misc", none, true⟩).2 (objectIdToString 0)
      = .ok ⟨objectIdToString 0, "Widget", none, 5, "misc", none, true⟩ :=
  create_then_get ⟨[], 0⟩ ⟨"Widget", none, 5, "misc", none, true⟩
    (by norm_num) (by simp) (by norm_num)

end ECommerce
